import Mathlib

/-!
Shallow embedding of the `live_shopping` Django backend of the
dyte-video-shopping-sample repository (the Python code in `src/BLOG.md`):
the `LiveVideoRequest` model, the `DyteAPIClient` adapter, and the four
operations of `LiveVideoRequestViewSet` (`create`, `list`, `start`,
`user_token`).

Modelling conventions:
  - The database table is a `List LiveVideoRequest`; `get_object_or_404`
    becomes `List.find?` on the primary key, `.save()` becomes a positional
    map-update on the list, `objects.create` appends a row with a fresh
    primary key.
  - The external Dyte provider is an oracle (`DyteProvider`): a record of
    the three response shapes the adapter unwraps on success. Every service
    operation additionally returns the list of provider calls it issued
    (`ProviderCall`), so that frame conditions such as "no provider call is
    made" are statements about the definition.
  - The HTTP layer of the adapter (`DyteAPIClient._fetch`, built on
    `requests`' `raise_for_status`) is modelled on an explicit wire
    response: `raise_for_status` raises exactly when `400 ≤ status < 600`,
    and on success `_fetch` returns the `data` field of the response
    envelope.
-/

/-- Status enum of `LiveVideoRequest` (`STATUS_CHOICES` in `models.py`). -/
inductive Status where
  | PENDING
  | ACTIVE
  | DONE
deriving DecidableEq, Repr

/-- The validated `product` blob (`ProductSerializer`: `id`, `title`, `image`). -/
structure Product where
  id : Int
  title : String
  image : String
deriving DecidableEq, Repr

/-- One row of the `LiveVideoRequest` table (`live_shopping/models.py`).
`support_user_dyte_participant_id` is nullable (`null=True`); the two
creation-time identifiers are non-null columns. The `support_user` foreign
key carries no behaviour in the covered surface and is omitted. -/
structure LiveVideoRequest where
  id : Nat
  user_email : String
  user_name : String
  user_dyte_participant_id : String
  dyte_meeting_id : String
  support_user_dyte_participant_id : Option String
  status : Status
  feedback : String
  product : Product
deriving DecidableEq, Repr

/-- Response data of `POST /meetings` as used by the views: a meeting object
with an `id`. -/
structure MeetingData where
  id : String
deriving DecidableEq, Repr

/-- Response data of `POST /meetings/{id}/participants`: a participant
object with an `id` and an auth `token`. -/
structure ParticipantData where
  id : String
  token : String
deriving DecidableEq, Repr

/-- Response data of `POST /meetings/{id}/participants/{pid}/token`. -/
structure TokenData where
  token : String
deriving DecidableEq, Repr

/-- One call issued to the Dyte provider, with the exact arguments the view
code passes to `DyteAPIClient`. Service operations return the list of such
calls they made, in order. -/
inductive ProviderCall where
  | create_meeting (title : String) (preferred_region : String) (record_on_start : Bool)
  | add_participant (meeting_id : String) (name : String) (preset_name : String)
      (custom_participant_id : String)
  | refresh_participant_token (meeting_id : String) (participant_id : String)
deriving DecidableEq, Repr

/-- Oracle for the external provider: the (successful) response data the
three `DyteAPIClient` operations would unwrap. The views read
`dyte_meeting["id"]`, `participant["id"]`, `participant["token"]` and
`token["token"]` from these. -/
structure DyteProvider where
  create_meeting : String → String → Bool → MeetingData
  add_participant : String → String → String → String → ParticipantData
  refresh_participant_token : String → String → TokenData

namespace DyteAPIClient

/-- JSON envelope returned by the Dyte API: `{"success": ..., "data": ...}`;
`_fetch` returns only the `data` member. -/
structure Envelope (α : Type) where
  success : Bool
  data : α
deriving DecidableEq, Repr

/-- A wire response from the provider: HTTP status code plus JSON body. -/
structure HttpResponse (α : Type) where
  statusCode : Nat
  body : Envelope α
deriving DecidableEq, Repr

/-- Error raised by the adapter on a provider error response
(`requests.HTTPError` out of `response.raise_for_status()`); it carries the
status code and the response body. -/
inductive ProviderError (α : Type) where
  | httpError (statusCode : Nat) (body : Envelope α)
deriving DecidableEq, Repr

/-- `response.raise_for_status()` of `requests`: raises exactly on a 4xx
client error or 5xx server error status, i.e. when `400 ≤ status < 600`. -/
def raise_for_status (resp : HttpResponse α) : Except (ProviderError α) Unit :=
  if 400 ≤ resp.statusCode ∧ resp.statusCode < 600 then
    Except.error (ProviderError.httpError resp.statusCode resp.body)
  else
    Except.ok ()

/-- `DyteAPIClient._fetch`: send the prepared request, `raise_for_status`,
then return `response.json()["data"]`. The network hop is modelled by
taking the wire response as an argument. -/
def _fetch (resp : HttpResponse α) : Except (ProviderError α) α := do
  raise_for_status resp
  pure resp.body.data

/-- `DyteAPIClient.create_meeting`: POSTs `{title, preferred_region,
record_on_start}` to `meetings` and unwraps the response via `_fetch`. The
request parameters only shape the network request, which is modelled by the
given wire response. -/
def create_meeting (_title : String) (_preferred_region : String)
    (_record_on_start : Bool) (resp : HttpResponse MeetingData) :
    Except (ProviderError MeetingData) MeetingData :=
  _fetch resp

/-- `DyteAPIClient.add_participant`: POSTs `{name, preset_name,
custom_participant_id}` to `meetings/{meeting_id}/participants` and unwraps
the response via `_fetch`. -/
def add_participant (_meeting_id : String) (_name : String)
    (_preset_name : String) (_custom_participant_id : String)
    (resp : HttpResponse ParticipantData) :
    Except (ProviderError ParticipantData) ParticipantData :=
  _fetch resp

/-- `DyteAPIClient.refresh_participant_token`: POSTs to
`meetings/{meeting_id}/participants/{participant_id}/token` and unwraps the
response via `_fetch`. -/
def refresh_participant_token (_meeting_id : String) (_participant_id : String)
    (resp : HttpResponse TokenData) :
    Except (ProviderError TokenData) TokenData :=
  _fetch resp

end DyteAPIClient

/-- Raw `create` payload before validation: `None` stands for a field that
is missing or fails its serializer field validation (`EmailField`,
`CharField`, `IntegerField`, `URLField`). Read-only fields of
`LiveVideoRequestSerializer` (`id`, `status`, the participant/meeting ids,
`support_user`) are never taken from the payload. -/
structure RawProduct where
  id : Option Int
  title : Option String
  image : Option String
deriving DecidableEq, Repr

/-- Raw request payload for `create`. `feedback` is
`CharField(required=False)`, hence never an error source. -/
structure Payload where
  user_name : Option String
  user_email : Option String
  product : Option RawProduct
  feedback : Option String
deriving DecidableEq, Repr

/-- The fields `LiveVideoRequestSerializer.is_valid` reports as invalid on
this payload (`serializer.errors` keys): required `user_name`, required and
well-formed `user_email`, and a present, well-formed `product` blob. -/
def validationErrors (p : Payload) : List String :=
  (if p.user_name.isNone then ["user_name"] else []) ++
  (if p.user_email.isNone then ["user_email"] else []) ++
  (match p.product with
   | none => ["product"]
   | some prod =>
       if prod.id.isNone ∨ prod.title.isNone ∨ prod.image.isNone then
         ["product"]
       else [])

/-- Fresh primary key for `LiveVideoRequest.objects.create`: one more than
the largest key in the table. -/
def freshId (db : List LiveVideoRequest) : Nat :=
  (db.map (fun r => r.id)).foldr max 0 + 1

namespace LiveVideoRequestViewSet

/-- Result of the `create` view: `201` with the created record, or `400`
with the serializer errors. -/
inductive CreateOutcome where
  | badRequest (errors : List String)
  | created (rec : LiveVideoRequest)
deriving DecidableEq, Repr

/-- HTTP status code of a `create` response. -/
def CreateOutcome.httpStatus : CreateOutcome → Nat
  | .badRequest _ => 400
  | .created _ => 201

/-- `LiveVideoRequestViewSet.create`: validate with
`LiveVideoRequestSerializer`; on success call `DyteAPIClient.create_meeting`
with a title derived from the product title, region `"ap-south-1"` and
recording off, then `DyteAPIClient.add_participant` for the customer
(preset `"video_shoping"`, the email as `custom_participant_id`), persist a
PENDING row with the returned ids, and respond 201; otherwise respond 400
with the errors. Returns (outcome, new table, provider calls issued). -/
def create (P : DyteProvider) (db : List LiveVideoRequest) (p : Payload) :
    CreateOutcome × List LiveVideoRequest × List ProviderCall :=
  match p.user_name, p.user_email, p.product with
  | some user_name, some user_email, some ⟨some pid, some title, some image⟩ =>
      let dyte_meeting := P.create_meeting ("Live shopping for: " ++ title) "ap-south-1" false
      let participant := P.add_participant dyte_meeting.id user_name "video_shoping" user_email
      let live_request : LiveVideoRequest :=
        { id := freshId db
          user_email := user_email
          user_name := user_name
          user_dyte_participant_id := participant.id
          dyte_meeting_id := dyte_meeting.id
          support_user_dyte_participant_id := none
          status := Status.PENDING
          feedback := ""
          product := { id := pid, title := title, image := image } }
      (CreateOutcome.created live_request, db ++ [live_request],
       [ProviderCall.create_meeting ("Live shopping for: " ++ title) "ap-south-1" false,
        ProviderCall.add_participant dyte_meeting.id user_name "video_shoping" user_email])
  | _, _, _ => (CreateOutcome.badRequest (validationErrors p), db, [])

/-- `LiveVideoRequestViewSet.list`: respond 200 with
`LiveVideoRequest.objects.filter(status=PENDING)`; read-only. Returns
(rows, new table, provider calls issued). -/
def list (db : List LiveVideoRequest) :
    List LiveVideoRequest × List LiveVideoRequest × List ProviderCall :=
  (db.filter (fun r => r.status == Status.PENDING), db, [])

/-- Result of the `start` view: 404 from `get_object_or_404`, or
`{"dyte_auth_token": token}` with the given HTTP status (200 rejoin /
201 first join). -/
inductive StartOutcome where
  | notFound
  | ok (httpStatus : Nat) (dyte_auth_token : String)
deriving DecidableEq, Repr

/-- HTTP status code of a `start` response. -/
def StartOutcome.httpStatus : StartOutcome → Nat
  | .notFound => 404
  | .ok s _ => s

/-- `LiveVideoRequestViewSet.start`: fetch the row by pk
(`get_object_or_404`); if `support_user_dyte_participant_id` is set,
refresh that participant's token and respond 200; otherwise add a
`"Customer Support"` participant (preset `"video_shoping"`, custom id
`"customer_support"`), store its id, set status ACTIVE, save, and respond
201 with its token. Returns (outcome, new table, provider calls issued). -/
def start (P : DyteProvider) (db : List LiveVideoRequest) (pk : Nat) :
    StartOutcome × List LiveVideoRequest × List ProviderCall :=
  match db.find? (fun r => r.id == pk) with
  | none => (StartOutcome.notFound, db, [])
  | some live_request =>
      match live_request.support_user_dyte_participant_id with
      | some spid =>
          let token := P.refresh_participant_token live_request.dyte_meeting_id spid
          (StartOutcome.ok 200 token.token, db,
           [ProviderCall.refresh_participant_token live_request.dyte_meeting_id spid])
      | none =>
          let participant := P.add_participant live_request.dyte_meeting_id
            "Customer Support" "video_shoping" "customer_support"
          let saved := { live_request with
            support_user_dyte_participant_id := some participant.id
            status := Status.ACTIVE }
          (StartOutcome.ok 201 participant.token,
           db.map (fun r => if r.id == pk then saved else r),
           [ProviderCall.add_participant live_request.dyte_meeting_id
              "Customer Support" "video_shoping" "customer_support"])

/-- Result of the `user_token` view: 404 from `get_object_or_404`, or 200
with `{"dyte_auth_token": token}`. -/
inductive UserTokenOutcome where
  | notFound
  | ok (dyte_auth_token : String)
deriving DecidableEq, Repr

/-- HTTP status code of a `user_token` response. -/
def UserTokenOutcome.httpStatus : UserTokenOutcome → Nat
  | .notFound => 404
  | .ok _ => 200

/-- `LiveVideoRequestViewSet.user_token`: fetch the row by pk
(`get_object_or_404`), refresh the token of the stored
`user_dyte_participant_id` and respond 200 with it. Returns (outcome, new
table, provider calls issued). -/
def user_token (P : DyteProvider) (db : List LiveVideoRequest) (pk : Nat) :
    UserTokenOutcome × List LiveVideoRequest × List ProviderCall :=
  match db.find? (fun r => r.id == pk) with
  | none => (UserTokenOutcome.notFound, db, [])
  | some live_request =>
      let token := P.refresh_participant_token live_request.dyte_meeting_id
        live_request.user_dyte_participant_id
      (UserTokenOutcome.ok token.token, db,
       [ProviderCall.refresh_participant_token live_request.dyte_meeting_id
          live_request.user_dyte_participant_id])

end LiveVideoRequestViewSet

/-- One invocation of the covered HTTP surface. -/
inductive Op where
  | createOp (p : Payload)
  | listOp
  | startOp (pk : Nat)
  | userTokenOp (pk : Nat)
deriving DecidableEq, Repr

/-- The table after one operation is served (against provider oracle `P`). -/
def applyOp (P : DyteProvider) (db : List LiveVideoRequest) : Op → List LiveVideoRequest
  | .createOp p => (LiveVideoRequestViewSet.create P db p).2.1
  | .listOp => (LiveVideoRequestViewSet.list db).2.1
  | .startOp pk => (LiveVideoRequestViewSet.start P db pk).2.1
  | .userTokenOp pk => (LiveVideoRequestViewSet.user_token P db pk).2.1

/-- Tables reachable from the empty table through the covered surface,
under arbitrary provider responses. -/
inductive Reachable : List LiveVideoRequest → Prop
  | nil : Reachable []
  | step (P : DyteProvider) (db : List LiveVideoRequest) (op : Op) :
      Reachable db → Reachable (applyOp P db op)

/-! Concrete fixtures used by the witness theorems. -/

/-- A concrete provider oracle with distinguishable responses. -/
def demoProvider : DyteProvider :=
  { create_meeting := fun _ _ _ => { id := "meet-1" }
    add_participant := fun _ name _ _ => { id := "part-" ++ name, token := "tok-" ++ name }
    refresh_participant_token := fun m p => { token := "fresh-" ++ m ++ "-" ++ p } }

/-- A valid `create` payload (§8 scenario of the spec). -/
def demoPayload : Payload :=
  { user_name := some "Alice"
    user_email := some "alice@x.com"
    product := some { id := some 1, title := some "Shoes", image := some "http://img" }
    feedback := none }

/-- A stored PENDING row with no support participant. -/
def demoRow : LiveVideoRequest :=
  { id := 1
    user_email := "alice@x.com"
    user_name := "Alice"
    user_dyte_participant_id := "part-Alice"
    dyte_meeting_id := "meet-1"
    support_user_dyte_participant_id := none
    status := Status.PENDING
    feedback := ""
    product := { id := 1, title := "Shoes", image := "http://img" } }

/-- A one-row table holding `demoRow`. -/
def demoDb : List LiveVideoRequest := [demoRow]

open LiveVideoRequestViewSet

/-- C4: `list` returns exactly the PENDING rows (never an ACTIVE or DONE
row, omitting no PENDING row), leaves the table unchanged, and issues no
provider call. -/
theorem list_returns_exactly_pending (db : List LiveVideoRequest) (r : LiveVideoRequest) :
    (r ∈ (LiveVideoRequestViewSet.list db).1 ↔ r ∈ db ∧ r.status = Status.PENDING) ∧
    (LiveVideoRequestViewSet.list db).2.1 = db ∧
    (LiveVideoRequestViewSet.list db).2.2 = [] := by
  refine ⟨?_, rfl, rfl⟩
  simp [LiveVideoRequestViewSet.list, List.mem_filter]

/-- C5: on a pk that identifies no stored row, both `start` and
`user_token` respond 404 (`get_object_or_404`), issue no provider call and
leave the table unchanged. -/
theorem missing_id_not_found_no_effects (P : DyteProvider) (db : List LiveVideoRequest)
    (pk : Nat) (h : db.find? (fun r => r.id == pk) = none) :
    start P db pk = (StartOutcome.notFound, db, []) ∧
    user_token P db pk = (UserTokenOutcome.notFound, db, []) ∧
    (start P db pk).1.httpStatus = 404 ∧
    (user_token P db pk).1.httpStatus = 404 := by
  have h1 : start P db pk = (StartOutcome.notFound, db, []) := by
    simp [start, h]
  have h2 : user_token P db pk = (UserTokenOutcome.notFound, db, []) := by
    simp [user_token, h]
  refine ⟨h1, h2, ?_, ?_⟩
  · rw [h1]
    rfl
  · rw [h2]
    rfl

/-- C5 witness: pk 99 is absent from the one-row demo table. -/
theorem missing_id_not_found_no_effects_witness :
    start demoProvider demoDb 99 = (StartOutcome.notFound, demoDb, []) ∧
    user_token demoProvider demoDb 99 = (UserTokenOutcome.notFound, demoDb, []) ∧
    (start demoProvider demoDb 99).1.httpStatus = 404 ∧
    (user_token demoProvider demoDb 99).1.httpStatus = 404 :=
  missing_id_not_found_no_effects demoProvider demoDb 99 rfl

/-- C6: on an existing row, `user_token` returns the token freshly issued
by `refresh_participant_token` for the stored meeting id and
`user_dyte_participant_id` (that call is the whole provider trace, so the
token is never a cached one), and leaves the table unchanged; hence an
immediately repeated call is the very same computation on an identical row. -/
theorem user_token_always_refreshes (P : DyteProvider) (db : List LiveVideoRequest)
    (pk : Nat) (r : LiveVideoRequest) (h : db.find? (fun q => q.id == pk) = some r) :
    user_token P db pk =
      (UserTokenOutcome.ok
        (P.refresh_participant_token r.dyte_meeting_id r.user_dyte_participant_id).token,
       db,
       [ProviderCall.refresh_participant_token r.dyte_meeting_id r.user_dyte_participant_id]) ∧
    user_token P (user_token P db pk).2.1 pk = user_token P db pk := by
  have h1 : user_token P db pk =
      (UserTokenOutcome.ok
        (P.refresh_participant_token r.dyte_meeting_id r.user_dyte_participant_id).token,
       db,
       [ProviderCall.refresh_participant_token r.dyte_meeting_id r.user_dyte_participant_id]) := by
    simp [user_token, h]
  have hdb : (user_token P db pk).2.1 = db := by rw [h1]
  exact ⟨h1, by rw [hdb]⟩

/-- C6 witness: `user_token` on the demo row refreshes the stored user
participant and mutates nothing. -/
theorem user_token_always_refreshes_witness :
    user_token demoProvider demoDb 1 =
      (UserTokenOutcome.ok
        (demoProvider.refresh_participant_token demoRow.dyte_meeting_id
          demoRow.user_dyte_participant_id).token,
       demoDb,
       [ProviderCall.refresh_participant_token demoRow.dyte_meeting_id
          demoRow.user_dyte_participant_id]) ∧
    user_token demoProvider (user_token demoProvider demoDb 1).2.1 1 =
      user_token demoProvider demoDb 1 :=
  user_token_always_refreshes demoProvider demoDb 1 demoRow rfl

/-- C8: on an existing row, `start` responds 201 with the newly added
support participant's token when no support participant is set (first
join), and 200 with a refreshed token for the stored support participant
when one is set (rejoin). -/
theorem start_http_status_distinguishes_branches (P : DyteProvider)
    (db : List LiveVideoRequest) (pk : Nat) (r : LiveVideoRequest)
    (h : db.find? (fun q => q.id == pk) = some r) :
    (start P db pk).1 =
      match r.support_user_dyte_participant_id with
      | none =>
          StartOutcome.ok 201
            (P.add_participant r.dyte_meeting_id "Customer Support" "video_shoping"
              "customer_support").token
      | some spid =>
          StartOutcome.ok 200 (P.refresh_participant_token r.dyte_meeting_id spid).token := by
  cases hs : r.support_user_dyte_participant_id with
  | none => simp [start, h, hs]
  | some spid => simp [start, h, hs]

/-- C8 witness: first join on the demo row responds 201 with the new
support participant's token. -/
theorem start_http_status_distinguishes_branches_witness :
    (start demoProvider demoDb 1).1 =
      match demoRow.support_user_dyte_participant_id with
      | none =>
          StartOutcome.ok 201
            (demoProvider.add_participant demoRow.dyte_meeting_id "Customer Support"
              "video_shoping" "customer_support").token
      | some spid =>
          StartOutcome.ok 200
            (demoProvider.refresh_participant_token demoRow.dyte_meeting_id spid).token :=
  start_http_status_distinguishes_branches demoProvider demoDb 1 demoRow rfl

/-- C10: in the first-join branch, `start` issues exactly one
`add_participant` call whose display name, preset and external participant
id are the constants `"Customer Support"`, `"video_shoping"` and
`"customer_support"` — the same for every request. -/
theorem start_support_constant_args (P : DyteProvider) (db : List LiveVideoRequest)
    (pk : Nat) (r : LiveVideoRequest)
    (h : db.find? (fun q => q.id == pk) = some r)
    (hs : r.support_user_dyte_participant_id = none) :
    (start P db pk).2.2 =
      [ProviderCall.add_participant r.dyte_meeting_id "Customer Support" "video_shoping"
        "customer_support"] := by
  simp [start, h, hs]

/-- C10 witness: the demo first join issues the constant-argument
`add_participant` call. -/
theorem start_support_constant_args_witness :
    (start demoProvider demoDb 1).2.2 =
      [ProviderCall.add_participant demoRow.dyte_meeting_id "Customer Support" "video_shoping"
        "customer_support"] :=
  start_support_constant_args demoProvider demoDb 1 demoRow rfl rfl

/-- C3: on a valid payload, `create` persists and returns a new row with
status PENDING whose meeting id and user participant id are exactly the ids
from the provider's `create_meeting` and `add_participant` responses, and
it issues exactly those two provider calls. The row's two identifiers are
non-null columns of the model, so they exist from creation on. -/
theorem create_valid_persists_pending (P : DyteProvider) (db : List LiveVideoRequest)
    (p : Payload) (user_name user_email : String) (pid : Int) (title image : String)
    (fb : Option String)
    (hp : p = { user_name := some user_name, user_email := some user_email,
                product := some { id := some pid, title := some title, image := some image },
                feedback := fb }) :
    ∃ rec : LiveVideoRequest,
      create P db p =
        (CreateOutcome.created rec, db ++ [rec],
         [ProviderCall.create_meeting ("Live shopping for: " ++ title) "ap-south-1" false,
          ProviderCall.add_participant
            (P.create_meeting ("Live shopping for: " ++ title) "ap-south-1" false).id
            user_name "video_shoping" user_email]) ∧
      rec.status = Status.PENDING ∧
      rec.dyte_meeting_id =
        (P.create_meeting ("Live shopping for: " ++ title) "ap-south-1" false).id ∧
      rec.user_dyte_participant_id =
        (P.add_participant
          (P.create_meeting ("Live shopping for: " ++ title) "ap-south-1" false).id
          user_name "video_shoping" user_email).id := by
  subst hp
  exact ⟨_, rfl, rfl, rfl, rfl⟩

/-- C3 witness: creating from the demo payload on the empty table. -/
theorem create_valid_persists_pending_witness :
    ∃ rec : LiveVideoRequest,
      create demoProvider [] demoPayload =
        (CreateOutcome.created rec, [] ++ [rec],
         [ProviderCall.create_meeting ("Live shopping for: " ++ "Shoes") "ap-south-1" false,
          ProviderCall.add_participant
            (demoProvider.create_meeting ("Live shopping for: " ++ "Shoes") "ap-south-1" false).id
            "Alice" "video_shoping" "alice@x.com"]) ∧
      rec.status = Status.PENDING ∧
      rec.dyte_meeting_id =
        (demoProvider.create_meeting ("Live shopping for: " ++ "Shoes") "ap-south-1" false).id ∧
      rec.user_dyte_participant_id =
        (demoProvider.add_participant
          (demoProvider.create_meeting ("Live shopping for: " ++ "Shoes") "ap-south-1" false).id
          "Alice" "video_shoping" "alice@x.com").id :=
  create_valid_persists_pending demoProvider [] demoPayload "Alice" "alice@x.com" 1 "Shoes"
    "http://img" none rfl

/-- C7: on an invalid payload (`is_valid` false, i.e. at least one
validation error), `create` responds 400 carrying exactly the offending
fields, issues no provider call and persists no row. -/
theorem create_invalid_validation_error (P : DyteProvider) (db : List LiveVideoRequest)
    (p : Payload) (h : validationErrors p ≠ []) :
    create P db p = (CreateOutcome.badRequest (validationErrors p), db, []) ∧
    (create P db p).1.httpStatus = 400 := by
  have hmain : create P db p = (CreateOutcome.badRequest (validationErrors p), db, []) := by
    obtain ⟨n, e, pr, fb⟩ := p
    rcases n with _ | n <;> rcases e with _ | e <;> rcases pr with _ | ⟨pi, pt, pm⟩ <;>
      first
        | rfl
        | (rcases pi with _ | pi <;> rcases pt with _ | pt <;> rcases pm with _ | pm <;>
            first
              | rfl
              | exact absurd (by simp [validationErrors]) h)
  refine ⟨hmain, ?_⟩
  rw [hmain]
  rfl

/-- C7 witness: a payload missing `user_email` and with a malformed product
blob is rejected with those two fields, no provider call, no new row. -/
theorem create_invalid_validation_error_witness :
    create demoProvider demoDb
      { user_name := some "Bob", user_email := none,
        product := some { id := none, title := some "Hat", image := some "http://img" },
        feedback := none } =
      (CreateOutcome.badRequest
        (validationErrors
          { user_name := some "Bob", user_email := none,
            product := some { id := none, title := some "Hat", image := some "http://img" },
            feedback := none }),
       demoDb, []) ∧
    (create demoProvider demoDb
      { user_name := some "Bob", user_email := none,
        product := some { id := none, title := some "Hat", image := some "http://img" },
        feedback := none }).1.httpStatus = 400 :=
  create_invalid_validation_error demoProvider demoDb
    { user_name := some "Bob", user_email := none,
      product := some { id := none, title := some "Hat", image := some "http://img" },
      feedback := none } (by decide)

/-- C9 (amended): each adapter operation raises `ProviderError` carrying
the status code and response body exactly when the provider responds with
a 4xx or 5xx status (the `raise_for_status` condition `400 ≤ s < 600`),
and otherwise returns the unwrapped `data` field of the response envelope,
never the whole envelope. -/
theorem adapter_raises_4xx_5xx_and_unwraps (title region : String) (ros : Bool)
    (mid name preset cpid pid : String)
    (mresp : DyteAPIClient.HttpResponse MeetingData)
    (presp : DyteAPIClient.HttpResponse ParticipantData)
    (tresp : DyteAPIClient.HttpResponse TokenData) :
    DyteAPIClient.create_meeting title region ros mresp =
      (if 400 ≤ mresp.statusCode ∧ mresp.statusCode < 600 then
        Except.error (DyteAPIClient.ProviderError.httpError mresp.statusCode mresp.body)
      else Except.ok mresp.body.data) ∧
    DyteAPIClient.add_participant mid name preset cpid presp =
      (if 400 ≤ presp.statusCode ∧ presp.statusCode < 600 then
        Except.error (DyteAPIClient.ProviderError.httpError presp.statusCode presp.body)
      else Except.ok presp.body.data) ∧
    DyteAPIClient.refresh_participant_token mid pid tresp =
      (if 400 ≤ tresp.statusCode ∧ tresp.statusCode < 600 then
        Except.error (DyteAPIClient.ProviderError.httpError tresp.statusCode tresp.body)
      else Except.ok tresp.body.data) := by
  refine ⟨?_, ?_, ?_⟩
  · by_cases h : 400 ≤ mresp.statusCode ∧ mresp.statusCode < 600 <;>
      simp [DyteAPIClient.create_meeting, DyteAPIClient._fetch,
        DyteAPIClient.raise_for_status, h]
  · by_cases h : 400 ≤ presp.statusCode ∧ presp.statusCode < 600 <;>
      simp [DyteAPIClient.add_participant, DyteAPIClient._fetch,
        DyteAPIClient.raise_for_status, h]
  · by_cases h : 400 ≤ tresp.statusCode ∧ tresp.statusCode < 600 <;>
      simp [DyteAPIClient.refresh_participant_token, DyteAPIClient._fetch,
        DyteAPIClient.raise_for_status, h]

/-- A provider wire response with the non-success status 300 and an
ordinary envelope. -/
def resp300 : DyteAPIClient.HttpResponse MeetingData :=
  { statusCode := 300, body := { success := false, data := { id := "m0" } } }

/-- C9 counterexample: on a response whose status 300 is not a success
(2xx) status, the adapter raises nothing — it returns the unwrapped data —
so "raises `ProviderError` whenever the provider returns a non-success
HTTP status" fails as stated. -/
theorem adapter_nonsuccess_counterexample :
    DyteAPIClient.create_meeting "t" "ap-south-1" false resp300 =
      Except.ok { id := "m0" } ∧
    ¬ (200 ≤ resp300.statusCode ∧ resp300.statusCode ≤ 299) :=
  ⟨rfl, by decide⟩

/-- After the map-update that `save` performs, `find?` on the saved key
returns the saved row (whose key is unchanged). -/
theorem find?_map_saved (db : List LiveVideoRequest) (pk : Nat) (r s : LiveVideoRequest)
    (hfind : db.find? (fun q => q.id == pk) = some r) (hid : s.id = pk) :
    (db.map (fun q => if q.id == pk then s else q)).find? (fun q => q.id == pk) = some s := by
  induction db with
  | nil => simp at hfind
  | cons a tl ih =>
    rw [List.map_cons]
    by_cases ha : a.id = pk
    · simp [List.find?_cons, ha, hid]
    · have hb : (a.id == pk) = false := by simp [ha]
      simp only [List.find?_cons, hb] at hfind
      have hhead : (if a.id == pk then s else a) = a := by simp [hb]
      rw [hhead]
      simp only [List.find?_cons, hb]
      exact ih hfind

/-- On a table whose lookup at `pk` yields a row with a support participant
already set, `start` takes the rejoin branch: refresh that participant's
token, touch nothing. -/
theorem start_rejoin_eq (P : DyteProvider) (db : List LiveVideoRequest) (pk : Nat)
    (r : LiveVideoRequest) (spid : String)
    (hfind : db.find? (fun q => q.id == pk) = some r)
    (hs : r.support_user_dyte_participant_id = some spid) :
    start P db pk =
      (StartOutcome.ok 200 (P.refresh_participant_token r.dyte_meeting_id spid).token, db,
       [ProviderCall.refresh_participant_token r.dyte_meeting_id spid]) := by
  simp [start, hfind, hs]

/-- C1: on a PENDING row with no support participant set, the first `start`
transitions status to ACTIVE and stores a support participant id; a second
`start` responds with a token refreshed for that SAME support participant
id, changes no row, and in particular leaves status and
`support_user_dyte_participant_id` unchanged. -/
theorem start_idempotent_support_identity (P : DyteProvider) (db : List LiveVideoRequest)
    (pk : Nat) (r : LiveVideoRequest)
    (hfind : db.find? (fun q => q.id == pk) = some r)
    (hpending : r.status = Status.PENDING)
    (hsupport : r.support_user_dyte_participant_id = none) :
    ∃ spid : String,
      spid = (P.add_participant r.dyte_meeting_id "Customer Support" "video_shoping"
        "customer_support").id ∧
      (start P db pk).1 =
        StartOutcome.ok 201
          (P.add_participant r.dyte_meeting_id "Customer Support" "video_shoping"
            "customer_support").token ∧
      ((start P db pk).2.1).find? (fun q => q.id == pk) =
        some { r with status := Status.ACTIVE,
                      support_user_dyte_participant_id := some spid } ∧
      (start P (start P db pk).2.1 pk).1 =
        StartOutcome.ok 200 (P.refresh_participant_token r.dyte_meeting_id spid).token ∧
      (start P (start P db pk).2.1 pk).2.1 = (start P db pk).2.1 ∧
      (start P (start P db pk).2.1 pk).2.2 =
        [ProviderCall.refresh_participant_token r.dyte_meeting_id spid] := by
  have hr : r.id = pk := by
    have hq := List.find?_some hfind
    simpa using hq
  have h1 : start P db pk =
      (StartOutcome.ok 201 (P.add_participant r.dyte_meeting_id "Customer Support"
        "video_shoping" "customer_support").token,
       db.map (fun q => if q.id == pk then
         { r with status := Status.ACTIVE,
                  support_user_dyte_participant_id :=
                    some (P.add_participant r.dyte_meeting_id "Customer Support"
                      "video_shoping" "customer_support").id } else q),
       [ProviderCall.add_participant r.dyte_meeting_id "Customer Support" "video_shoping"
         "customer_support"]) := by
    simp [start, hfind, hsupport]
  have h2 : ((start P db pk).2.1).find? (fun q => q.id == pk) =
      some { r with status := Status.ACTIVE,
                    support_user_dyte_participant_id :=
                      some (P.add_participant r.dyte_meeting_id "Customer Support"
                        "video_shoping" "customer_support").id } := by
    rw [h1]
    exact find?_map_saved db pk r _ hfind hr
  have h3 : start P (start P db pk).2.1 pk =
      (StartOutcome.ok 200 (P.refresh_participant_token r.dyte_meeting_id
        (P.add_participant r.dyte_meeting_id "Customer Support" "video_shoping"
          "customer_support").id).token,
       (start P db pk).2.1,
       [ProviderCall.refresh_participant_token r.dyte_meeting_id
         (P.add_participant r.dyte_meeting_id "Customer Support" "video_shoping"
           "customer_support").id]) :=
    start_rejoin_eq P (start P db pk).2.1 pk
      { r with status := Status.ACTIVE,
               support_user_dyte_participant_id :=
                 some (P.add_participant r.dyte_meeting_id "Customer Support" "video_shoping"
                   "customer_support").id }
      (P.add_participant r.dyte_meeting_id "Customer Support" "video_shoping"
        "customer_support").id h2 rfl
  refine ⟨(P.add_participant r.dyte_meeting_id "Customer Support" "video_shoping"
    "customer_support").id, rfl, ?_, h2, ?_, ?_, ?_⟩
  · rw [h1]
  · rw [h3]
  · rw [h3]
  · rw [h3]

/-- C1 witness: the two successive `start` calls on the demo PENDING row. -/
theorem start_idempotent_support_identity_witness :
    ∃ spid : String,
      spid = (demoProvider.add_participant demoRow.dyte_meeting_id "Customer Support"
        "video_shoping" "customer_support").id ∧
      (start demoProvider demoDb 1).1 =
        StartOutcome.ok 201
          (demoProvider.add_participant demoRow.dyte_meeting_id "Customer Support"
            "video_shoping" "customer_support").token ∧
      ((start demoProvider demoDb 1).2.1).find? (fun q => q.id == 1) =
        some { demoRow with status := Status.ACTIVE,
                            support_user_dyte_participant_id := some spid } ∧
      (start demoProvider (start demoProvider demoDb 1).2.1 1).1 =
        StartOutcome.ok 200
          (demoProvider.refresh_participant_token demoRow.dyte_meeting_id spid).token ∧
      (start demoProvider (start demoProvider demoDb 1).2.1 1).2.1 =
        (start demoProvider demoDb 1).2.1 ∧
      (start demoProvider (start demoProvider demoDb 1).2.1 1).2.2 =
        [ProviderCall.refresh_participant_token demoRow.dyte_meeting_id spid] :=
  start_idempotent_support_identity demoProvider demoDb 1 demoRow rfl rfl rfl

/-- `create` either leaves the table alone (invalid payload) or appends one
new PENDING row. -/
theorem create_table_cases (P : DyteProvider) (db : List LiveVideoRequest) (p : Payload) :
    (create P db p).2.1 = db ∨
    ∃ rec : LiveVideoRequest, rec.status = Status.PENDING ∧
      (create P db p).2.1 = db ++ [rec] := by
  obtain ⟨n, e, pr, fb⟩ := p
  rcases n with _ | n <;> rcases e with _ | e <;> rcases pr with _ | ⟨pi, pt, pm⟩ <;>
    first
      | exact Or.inl rfl
      | (rcases pi with _ | pi <;> rcases pt with _ | pt <;> rcases pm with _ | pm <;>
          first
            | exact Or.inl rfl
            | exact Or.inr ⟨_, rfl, rfl⟩)

/-- `user_token` never writes the table. -/
theorem user_token_table_eq (P : DyteProvider) (db : List LiveVideoRequest) (pk : Nat) :
    (user_token P db pk).2.1 = db := by
  cases hf : db.find? (fun q => q.id == pk) with
  | none => simp [user_token, hf]
  | some r => simp [user_token, hf]

/-- `start` either leaves the table alone (404 or rejoin) or performs the
save: a map-update writing an ACTIVE row at the looked-up key. -/
theorem start_table_cases (P : DyteProvider) (db : List LiveVideoRequest) (pk : Nat) :
    (start P db pk).2.1 = db ∨
    ∃ s : LiveVideoRequest, s.id = pk ∧ s.status = Status.ACTIVE ∧
      (start P db pk).2.1 = db.map (fun q => if q.id == pk then s else q) := by
  cases hf : db.find? (fun q => q.id == pk) with
  | none => exact Or.inl (by simp [start, hf])
  | some r =>
    cases hs : r.support_user_dyte_participant_id with
    | some spid => exact Or.inl (by simp [start, hf, hs])
    | none =>
      have hr : r.id = pk := by
        have hq := List.find?_some hf
        simpa using hq
      refine Or.inr ⟨{ r with
        status := Status.ACTIVE
        support_user_dyte_participant_id :=
          some (P.add_participant r.dyte_meeting_id "Customer Support"
            "video_shoping" "customer_support").id }, hr, rfl, ?_⟩
      simp [start, hf, hs]

/-- No row of the table has status DONE: the covered surface never
produces DONE. -/
def NoDone (db : List LiveVideoRequest) : Prop :=
  ∀ r ∈ db, r.status ≠ Status.DONE

/-- Every covered operation preserves `NoDone`. -/
theorem noDone_applyOp (P : DyteProvider) (db : List LiveVideoRequest) (op : Op)
    (h : NoDone db) : NoDone (applyOp P db op) := by
  cases op with
  | createOp p =>
    rcases create_table_cases P db p with hc | ⟨rec, hrec, hc⟩
    · intro r hr
      simp only [applyOp] at hr
      rw [hc] at hr
      exact h r hr
    · intro r hr
      simp only [applyOp] at hr
      rw [hc] at hr
      rcases List.mem_append.mp hr with h1 | h1
      · exact h r h1
      · have : r = rec := by simpa using h1
        subst this
        simp [hrec]
  | listOp => exact h
  | startOp pk =>
    rcases start_table_cases P db pk with hc | ⟨s, hsid, hsA, hc⟩
    · intro r hr
      simp only [applyOp] at hr
      rw [hc] at hr
      exact h r hr
    · intro r hr
      simp only [applyOp] at hr
      rw [hc] at hr
      rcases List.mem_map.mp hr with ⟨q, hq, hqe⟩
      by_cases hqid : q.id = pk
      · have : r = s := by simpa [hqid] using hqe.symm
        rw [this]
        simp [hsA]
      · have : r = q := by simpa [hqid] using hqe.symm
        rw [this]
        exact h q hq
  | userTokenOp pk =>
    intro r hr
    simp only [applyOp] at hr
    rw [user_token_table_eq] at hr
    exact h r hr

/-- Reachable tables never hold a DONE row. -/
theorem reachable_noDone (db : List LiveVideoRequest) (h : Reachable db) : NoDone db := by
  induction h with
  | nil => intro r hr; cases hr
  | step P db op _ ih => exact noDone_applyOp P db op ih

/-- C2: on any reachable table, any covered operation keeps every existing
row in place with its id, and the row's status either stays what it was or
moves PENDING → ACTIVE; in particular no row ever returns to PENDING from
ACTIVE or DONE, and a DONE row (none exists in the covered surface) would
never be moved out of DONE by these operations. -/
theorem status_transitions_monotone (P : DyteProvider) (db : List LiveVideoRequest)
    (op : Op) (i : Nat) (x : LiveVideoRequest)
    (hreach : Reachable db) (hx : db[i]? = some x) :
    ∃ r' : LiveVideoRequest, (applyOp P db op)[i]? = some r' ∧ r'.id = x.id ∧
      (r'.status = x.status ∨ (x.status = Status.PENDING ∧ r'.status = Status.ACTIVE)) := by
  have hnd : NoDone db := reachable_noDone db hreach
  have hxmem : x ∈ db := List.getElem?_mem hx
  have hilt : i < db.length := (List.getElem?_eq_some.mp hx).1
  cases op with
  | createOp p =>
    rcases create_table_cases P db p with hc | ⟨rec, hrec, hc⟩
    · refine ⟨x, ?_, rfl, Or.inl rfl⟩
      simp only [applyOp]
      rw [hc]
      exact hx
    · refine ⟨x, ?_, rfl, Or.inl rfl⟩
      simp only [applyOp]
      rw [hc, List.getElem?_append, if_pos hilt]
      exact hx
  | listOp => exact ⟨x, hx, rfl, Or.inl rfl⟩
  | startOp pk =>
    rcases start_table_cases P db pk with hc | ⟨s, hsid, hsA, hc⟩
    · refine ⟨x, ?_, rfl, Or.inl rfl⟩
      simp only [applyOp]
      rw [hc]
      exact hx
    · have hmap : (applyOp P db (Op.startOp pk))[i]? =
          some (if x.id == pk then s else x) := by
        simp only [applyOp]
        rw [hc, List.getElem?_map, hx]
        rfl
      by_cases hxid : x.id = pk
      · refine ⟨s, ?_, by rw [hsid, hxid], ?_⟩
        · rw [hmap]
          simp [hxid]
        · cases hxs : x.status with
          | PENDING => exact Or.inr ⟨rfl, hsA⟩
          | ACTIVE => exact Or.inl hsA
          | DONE => exact absurd hxs (hnd x hxmem)
      · refine ⟨x, ?_, rfl, Or.inl rfl⟩
        rw [hmap]
        simp [hxid]
  | userTokenOp pk =>
    refine ⟨x, ?_, rfl, Or.inl rfl⟩
    simp only [applyOp]
    rw [user_token_table_eq]
    exact hx

/-- The table reached by creating the demo payload on the empty table. -/
def demoDb1 : List LiveVideoRequest := applyOp demoProvider [] (Op.createOp demoPayload)

/-- C2 witness: starting the freshly created demo request moves its row
(position 0, key 1) PENDING → ACTIVE. -/
theorem status_transitions_monotone_witness :
    ∃ r' : LiveVideoRequest, (applyOp demoProvider demoDb1 (Op.startOp 1))[0]? = some r' ∧
      r'.id = demoRow.id ∧
      (r'.status = demoRow.status ∨
        (demoRow.status = Status.PENDING ∧ r'.status = Status.ACTIVE)) :=
  status_transitions_monotone demoProvider demoDb1 (Op.startOp 1) 0 demoRow
    (Reachable.step demoProvider [] (Op.createOp demoPayload) Reachable.nil) rfl
